import Mathlib

/-!
Verification development for a Playwright-based end-to-end test repository
(SauceDemo login Page Object Model, test data module, and login scenarios).

The Page Object methods of `pages/LoginPage.js` are embedded shallowly:
every browser-driver wait is modelled as an environment field of type
`Option Nat → Except JsError Unit` (the argument is the `timeout` option the
source passes to the driver; `none` means the driver default), and each
method becomes a pure function of that environment.  Actions that mutate the
page (`fill`, `click`) are modelled as traces of `DriverAction` values together
with an explicit state-transition semantics.  The constants of
`utils/testData.js` are embedded directly.
-/

/-- Error values a browser-driver call can raise: a timeout of a bounded
wait, or any other driver error (element detached, navigation aborted, ...). -/
inductive JsError where
  | timeout : JsError
  | other : String → JsError
deriving DecidableEq, Repr

/-- True exactly when a wait outcome is a success. -/
def waitOk : Except JsError Unit → Bool
  | Except.ok _ => true
  | Except.error _ => false

/-- Environment seen by one `LoginPage` instance: the outcome of each wait
the page object can issue (as a function of the `timeout` option passed),
the text content of the error banner, and the page's current URL. -/
structure PageEnv where
  /-- Outcome of `errorMessage.waitFor({state: "visible", ...})` at a given timeout option. -/
  waitForError : Option Nat → Except JsError Unit
  /-- Outcome of `page.waitForURL("**/inventory.html", ...)` at a given timeout option. -/
  waitForInventoryURL : Option Nat → Except JsError Unit
  /-- Outcome of `inventoryLogo.waitFor({state: "visible", ...})` at a given timeout option. -/
  waitForLogo : Option Nat → Except JsError Unit
  /-- Text content of the `[data-test="error"]` banner element. -/
  errorText : String
  /-- Result of `page.url()`. -/
  currentUrl : String

/- ==================== Locator selectors (LoginPage constructor) ==================== -/

def usernameInput : String := "#user-name"

def passwordInput : String := "#password"

def loginButton : String := "#login-button"

def errorCloseButton : String := ".error-button"

def inventoryLogo : String := ".app_logo"

/- ==================== LoginPage methods ==================== -/

/-- `LoginPage.getErrorMessage`: `await errorMessage.waitFor({state:"visible"})`
(driver-default timeout), then return the banner's text content; no `catch`,
so any error of the wait propagates to the caller. -/
def getErrorMessage (env : PageEnv) : Except JsError String :=
  match env.waitForError none with
  | Except.ok _ => Except.ok env.errorText
  | Except.error e => Except.error e

/-- `LoginPage.isErrorVisible`: `try { await errorMessage.waitFor({state:"visible",
timeout: 3000}); return true } catch { return false }` — the bare `catch`
swallows every thrown value, not only timeouts. -/
def isErrorVisible (env : PageEnv) : Except JsError Bool :=
  match env.waitForError (some 3000) with
  | Except.ok _ => Except.ok true
  | Except.error _ => Except.ok false

/-- `LoginPage.isLoginSuccessful`: inside one `try`, first
`await page.waitForURL("**/inventory.html", {timeout: 5000})`, then
`await inventoryLogo.waitFor({state:"visible", timeout: 3000})`, then
`return true`; the bare `catch` returns `false` on any thrown value. -/
def isLoginSuccessful (env : PageEnv) : Except JsError Bool :=
  match env.waitForInventoryURL (some 5000) with
  | Except.error _ => Except.ok false
  | Except.ok _ =>
    match env.waitForLogo (some 3000) with
    | Except.error _ => Except.ok false
    | Except.ok _ => Except.ok true

/-- `LoginPage.isOnLoginPage`: synchronous equality of `page.url()` against
the two login URL variants. -/
def isOnLoginPage (env : PageEnv) : Bool :=
  env.currentUrl == "https://www.saucedemo.com/" ||
  env.currentUrl == "https://www.saucedemo.com/index.html"

/- ==================== DriverAction-trace model for mutating methods ==================== -/

/-- One driver action issued by a page-object method. -/
inductive DriverAction where
  | fill : String → String → DriverAction
  | click : String → DriverAction
deriving DecidableEq, Repr

/-- `LoginPage.login(username, password)`: fill the username field, fill the
password field, click the login button — in that order, with no validation of
the arguments. -/
def login (username password : String) : List DriverAction :=
  [DriverAction.fill usernameInput username,
   DriverAction.fill passwordInput password,
   DriverAction.click loginButton]

/-- Contents of the two input fields of the login form. -/
structure FormState where
  usernameValue : String
  passwordValue : String
deriving DecidableEq, Repr

/-- Driver semantics of one action on the form: `fill` replaces the prior
content of the targeted field; `click` leaves the fields unchanged. -/
def applyAction (st : FormState) : DriverAction → FormState
  | DriverAction.fill s v =>
    if s = usernameInput then { st with usernameValue := v }
    else if s = passwordInput then { st with passwordValue := v }
    else st
  | DriverAction.click _ => st

/-- Run a trace of actions on a form state. -/
def runActions (st : FormState) (as : List DriverAction) : FormState :=
  as.foldl applyAction st

/- ==================== Error banner state (closeErrorMessage) ==================== -/

/-- Visibility state of the error banner on a quiescent login page. -/
structure BannerState where
  errorVisible : Bool
deriving DecidableEq, Repr

/-- A visibility wait against a page that is not changing: succeeds at once
if the element is visible, otherwise times out at the bound. -/
def waitForVisibleStatic (visible : Bool) : Except JsError Unit :=
  if visible then Except.ok () else Except.error JsError.timeout

/-- The environment a quiescent login page with banner state `st` presents
to the page object: the error-banner wait resolves from `st`, the
inventory waits time out (the page is not navigating). -/
def envOfBanner (st : BannerState) : PageEnv :=
  { waitForError := fun _ => waitForVisibleStatic st.errorVisible
    waitForInventoryURL := fun _ => Except.error JsError.timeout
    waitForLogo := fun _ => Except.error JsError.timeout
    errorText := ""
    currentUrl := "https://www.saucedemo.com/" }

/-- Modelled from the spec: the application under test is external (not part
of the repository), and per the spec clicking the error banner's dismiss
control removes the error element from visibility. -/
def clickDismiss (_st : BannerState) : BannerState :=
  { errorVisible := false }

/-- `LoginPage.closeErrorMessage`: `if (await this.isErrorVisible()) { await
this.errorCloseButton.click(); }` — returns the resulting banner state and
the trace of clicks issued. -/
def closeErrorMessage (st : BannerState) : BannerState × List DriverAction :=
  match isErrorVisible (envOfBanner st) with
  | Except.ok true => (clickDismiss st, [DriverAction.click errorCloseButton])
  | _ => (st, [])

/- ==================== utils/testData.js ==================== -/

/-- A username/password pair. -/
structure Credential where
  username : String
  password : String
deriving DecidableEq, Repr

def VALID_USER : Credential :=
  { username := "standard_user", password := "secret_sauce" }

/-- `export const STANDARD_USER = VALID_USER;` -/
def STANDARD_USER : Credential := VALID_USER

def LOCKED_USER : Credential :=
  { username := "locked_out_user", password := "secret_sauce" }

def INVALID_USER : Credential :=
  { username := "invalid_user", password := "wrong_password" }

def VALID_PASSWORD : String := "secret_sauce"

def INVALID_PASSWORD : String := "wrong_password"

/-- Product-name catalog: symbolic id to display name. -/
structure ProductCatalog where
  BACKPACK : String
  BIKE_LIGHT : String
  BOLT_TSHIRT : String
  FLEECE_JACKET : String
  ONESIE : String
  TSHIRT_RED : String
deriving DecidableEq, Repr

def PRODUCTS : ProductCatalog :=
  { BACKPACK := "Sauce Labs Backpack"
    BIKE_LIGHT := "Sauce Labs Bike Light"
    BOLT_TSHIRT := "Sauce Labs Bolt T-Shirt"
    FLEECE_JACKET := "Sauce Labs Fleece Jacket"
    ONESIE := "Sauce Labs Onesie"
    TSHIRT_RED := "Test.allTheThings() T-Shirt (Red)" }

/-- The display-name values of `PRODUCTS`, in declaration order. -/
def PRODUCTS_values : List String :=
  [PRODUCTS.BACKPACK, PRODUCTS.BIKE_LIGHT, PRODUCTS.BOLT_TSHIRT,
   PRODUCTS.FLEECE_JACKET, PRODUCTS.ONESIE, PRODUCTS.TSHIRT_RED]

/-- `PRODUCT_PRICES`: display name to price; the source keys this object by
computed properties `[PRODUCTS.X]`, mirrored here. -/
def PRODUCT_PRICES : List (String × ℚ) :=
  [(PRODUCTS.ONESIE, 7.99),
   (PRODUCTS.BIKE_LIGHT, 9.99),
   (PRODUCTS.BOLT_TSHIRT, 15.99),
   (PRODUCTS.TSHIRT_RED, 15.99),
   (PRODUCTS.BACKPACK, 29.99),
   (PRODUCTS.FLEECE_JACKET, 49.99)]

def ERROR_MESSAGES_LOCKED_USER : String :=
  "Epic sadface: Sorry, this user has been locked out."

def ERROR_MESSAGES_INVALID_CREDENTIALS : String :=
  "Epic sadface: Username and password do not match any user in this service"

def ERROR_MESSAGES_MISSING_USERNAME : String :=
  "Epic sadface: Username is required"

def ERROR_MESSAGES_MISSING_PASSWORD : String :=
  "Epic sadface: Password is required"

/- ==================== Modelled application under test ==================== -/

/-- Outcome of a login attempt against the application under test. -/
inductive LoginOutcome where
  | success : LoginOutcome
  | lockedOut : LoginOutcome
  | invalidCreds : LoginOutcome
  | missingUsername : LoginOutcome
  | missingPassword : LoginOutcome
deriving DecidableEq, Repr

/-- Modelled from the spec: the application under test (SauceDemo) is
external to the repository; its response to each credential pair is taken
from the spec's concrete scenarios — valid pair succeeds, empty username or
password yields the corresponding required-field error, the locked user is
rejected as locked out, and every other pair is rejected as invalid
credentials. -/
def appLogin (username password : String) : LoginOutcome :=
  if username = "standard_user" ∧ password = "secret_sauce" then LoginOutcome.success
  else if username = "" then LoginOutcome.missingUsername
  else if password = "" then LoginOutcome.missingPassword
  else if username = "locked_out_user" ∧ password = "secret_sauce" then LoginOutcome.lockedOut
  else LoginOutcome.invalidCreds

/-- The error-banner text the application renders for a failing outcome. -/
def outcomeMessage : LoginOutcome → String
  | LoginOutcome.success => ""
  | LoginOutcome.lockedOut => ERROR_MESSAGES_LOCKED_USER
  | LoginOutcome.invalidCreds => ERROR_MESSAGES_INVALID_CREDENTIALS
  | LoginOutcome.missingUsername => ERROR_MESSAGES_MISSING_USERNAME
  | LoginOutcome.missingPassword => ERROR_MESSAGES_MISSING_PASSWORD

/-- Modelled from the spec: the page environment after navigating to the
login page and submitting a credential pair — on success the URL moves to
the inventory page, the logo wait succeeds and no error banner appears; on
any failing outcome the URL stays at the login page, the error banner is
visible with the outcome's message, and the inventory waits time out. -/
def envAfterLogin (username password : String) : PageEnv :=
  match appLogin username password with
  | LoginOutcome.success =>
    { waitForError := fun _ => Except.error JsError.timeout
      waitForInventoryURL := fun _ => Except.ok ()
      waitForLogo := fun _ => Except.ok ()
      errorText := ""
      currentUrl := "https://www.saucedemo.com/inventory.html" }
  | outcome =>
    { waitForError := fun _ => Except.ok ()
      waitForInventoryURL := fun _ => Except.error JsError.timeout
      waitForLogo := fun _ => Except.error JsError.timeout
      errorText := outcomeMessage outcome
      currentUrl := "https://www.saucedemo.com/" }

/-- A page environment in which the error-banner wait raises a non-timeout
driver error (for example, the element handle became detached). -/
def envOtherError : PageEnv :=
  { waitForError := fun _ => Except.error (JsError.other "element detached")
    waitForInventoryURL := fun _ => Except.error JsError.timeout
    waitForLogo := fun _ => Except.error JsError.timeout
    errorText := ""
    currentUrl := "https://www.saucedemo.com/" }

/- ==================== Theorems ==================== -/

/-- Claim C1, counterexample: in `isErrorVisible`, a non-timeout driver
error raised during the wait does not propagate to the caller — the method
returns `false` for it, so the timeout error is not the only error kind
converted to `false`. -/
theorem isErrorVisible_swallows_other_errors :
    isErrorVisible envOtherError = Except.ok false ∧
    isErrorVisible envOtherError ≠ Except.error (JsError.other "element detached") := by
  constructor
  · rfl
  · intro h
    exact Except.noConfusion h

/-- Claim C1, amended: `isErrorVisible` waits for the error element under a
3000 ms bound and returns `true` exactly when the wait succeeds; any error
raised during the wait — the timeout error or any other — is converted to
`false`, and no error propagates to the caller. -/
theorem isErrorVisible_spec (env : PageEnv) :
    isErrorVisible env = Except.ok (waitOk (env.waitForError (some 3000))) := by
  unfold isErrorVisible waitOk
  cases env.waitForError (some 3000) <;> rfl

/-- Claim C2: `isLoginSuccessful` performs the bounded URL wait (5000 ms)
and then the bounded logo-visibility wait (3000 ms), returning
`Except.ok true` exactly when both succeed and `Except.ok false` — never a
raised error — when either fails (in particular on a timeout of either). -/
theorem isLoginSuccessful_spec (env : PageEnv) :
    isLoginSuccessful env =
      Except.ok (waitOk (env.waitForInventoryURL (some 5000)) &&
                 waitOk (env.waitForLogo (some 3000))) := by
  unfold isLoginSuccessful waitOk
  cases env.waitForInventoryURL (some 5000) <;>
    cases env.waitForLogo (some 3000) <;> rfl

/-- Claim C3: `getErrorMessage` waits for the error element to become
visible and returns its text content on success; any error of the wait —
in particular the timeout — propagates unchanged to the caller. -/
theorem getErrorMessage_spec (env : PageEnv) :
    getErrorMessage env =
      Except.map (fun _ => env.errorText) (env.waitForError none) := by
  unfold getErrorMessage Except.map
  cases env.waitForError none <;> rfl

/-- Claim C4: for each of the three no-success credential pairs — the
locked user, the unknown user, and the valid username with a wrong
password — after the login attempt `isLoginSuccessful` returns `false`
and `isOnLoginPage` returns `true`. -/
theorem noSuccess_pairs_stay_on_login :
    (isLoginSuccessful (envAfterLogin LOCKED_USER.username LOCKED_USER.password) =
        Except.ok false ∧
      isOnLoginPage (envAfterLogin LOCKED_USER.username LOCKED_USER.password) = true) ∧
    (isLoginSuccessful (envAfterLogin INVALID_USER.username INVALID_USER.password) =
        Except.ok false ∧
      isOnLoginPage (envAfterLogin INVALID_USER.username INVALID_USER.password) = true) ∧
    (isLoginSuccessful (envAfterLogin VALID_USER.username INVALID_PASSWORD) =
        Except.ok false ∧
      isOnLoginPage (envAfterLogin VALID_USER.username INVALID_PASSWORD) = true) := by
  refine ⟨⟨?_, ?_⟩, ⟨?_, ?_⟩, ?_, ?_⟩ <;> rfl

/-- Claim C5: `closeErrorMessage` clicks the dismiss control exactly when
the error banner is visible and is otherwise a no-op; one call leaves the
banner invisible, so a second call on the resulting state clicks nothing
and changes nothing. -/
theorem closeErrorMessage_iff_and_idempotent (st : BannerState) :
    closeErrorMessage st =
      ({ errorVisible := false },
       if st.errorVisible then [DriverAction.click errorCloseButton] else []) ∧
    closeErrorMessage (closeErrorMessage st).1 = ((closeErrorMessage st).1, []) := by
  obtain ⟨v⟩ := st
  cases v <;> exact ⟨rfl, rfl⟩

/-- Claim C6: `login` issues exactly three driver actions in order — fill
the username field, fill the password field, click the submit control — for
every pair of string arguments (the empty string included, no shape
validation), and running that trace replaces whatever the form previously
held with exactly the given username and password. -/
theorem login_three_steps (username password : String) (st : FormState) :
    login username password =
      [DriverAction.fill usernameInput username,
       DriverAction.fill passwordInput password,
       DriverAction.click loginButton] ∧
    runActions st (login username password) =
      { usernameValue := username, passwordValue := password } := by
  exact ⟨rfl, rfl⟩

/-- Claim C7: `isOnLoginPage` returns `true` exactly when the current URL
equals one of the two login URL variants (with or without the trailing
`index.html`), and `false` for every other URL. -/
theorem isOnLoginPage_iff (env : PageEnv) :
    isOnLoginPage env = true ↔
      (env.currentUrl = "https://www.saucedemo.com/" ∨
       env.currentUrl = "https://www.saucedemo.com/index.html") := by
  simp [isOnLoginPage]

/-- Claim C8: every key of the derived price mapping `PRODUCT_PRICES` is a
display-name value of the `PRODUCTS` catalog. -/
theorem product_prices_keys_in_catalog :
    (PRODUCT_PRICES.map Prod.fst).all (fun k => PRODUCTS_values.contains k) = true := by
  decide

/-- Claim C9: `STANDARD_USER` is an alias of `VALID_USER` — the two
constants are equal, field by field. -/
theorem standard_user_is_valid_user :
    STANDARD_USER = VALID_USER ∧
    STANDARD_USER.username = VALID_USER.username ∧
    STANDARD_USER.password = VALID_USER.password := by
  exact ⟨rfl, rfl, rfl⟩

/-- Claim C10: the probe methods never let any error escape — both always
return a boolean (`isOk`), and whenever any error of any kind (timeout or
other) is raised inside one of their waits, the affected probe returns
`false`. -/
theorem probes_never_raise (env : PageEnv) (e : JsError) :
    (isErrorVisible env).isOk = true ∧
    (isLoginSuccessful env).isOk = true ∧
    isErrorVisible { env with waitForError := fun _ => Except.error e } = Except.ok false ∧
    isLoginSuccessful { env with waitForInventoryURL := fun _ => Except.error e } =
      Except.ok false ∧
    isLoginSuccessful { env with waitForLogo := fun _ => Except.error e } = Except.ok false := by
  refine ⟨?_, ?_, rfl, rfl, ?_⟩
  · unfold isErrorVisible
    cases env.waitForError (some 3000) <;> rfl
  · unfold isLoginSuccessful
    cases env.waitForInventoryURL (some 5000) <;> cases env.waitForLogo (some 3000) <;> rfl
  · unfold isLoginSuccessful
    cases env.waitForInventoryURL (some 5000) <;> rfl
